import Mathlib

set_option maxRecDepth 200000

/-!
Shallow embedding of `src/update_dashboard.py` (personal dashboard
automation script).  Python dictionaries are modelled as association
lists that preserve insertion order; Python values that can appear in a
scraped profile are modelled by the inductive type `Value`; the regular
expressions used by the field extractors are hand-compiled into a small
backtracking matcher (`matchHere`) whose greedy/backtracking behaviour
mirrors Python's `re` engine on these patterns; `\d` and `\s` are
modelled as ASCII digits and the six ASCII whitespace characters.
Network behaviour is a parameter (`Env`): each URL is mapped to either a
raised request exception or a response with a status code and a body.
Side effects (HTTP requests, pacing sleeps) are made observable through
an explicit event log.
-/

/-- A Python value as stored in a scraped profile dictionary:
a string, an int, or a list. -/
inductive Value where
  | s (v : String)
  | i (v : Int)
  | l (vs : List Value)

/-- A per-source profile dictionary (`Dict` in the Python type hints):
insertion-ordered association list from field name to value. -/
abbrev Profile := List (String × Value)

/-- The combined record built by `DashboardUpdater.collect_data`:
insertion-ordered map from source identifier to its profile. -/
abbrev Record := List (String × Profile)

mutual

/-- Python `repr` of a value, as used by `str` on list elements.
String escaping inside `repr` is not modelled (no reachable profile
stores a string inside a list). -/
def pyRepr : Value → String
  | .s v => "'" ++ v ++ "'"
  | .i n => toString n
  | .l vs => "[" ++ pyReprList vs ++ "]"

/-- Comma-separated `repr` of list elements, as Python prints a list. -/
def pyReprList : List Value → String
  | [] => ""
  | [v] => pyRepr v
  | v :: vs => pyRepr v ++ ", " ++ pyReprList vs

end

/-- Python `str` of a value, as applied by an f-string substitution. -/
def pyStr : Value → String
  | .s v => v
  | .i n => toString n
  | .l vs => "[" ++ pyReprList vs ++ "]"

/-- `d.get(k, default)` on a profile dictionary. -/
def Profile.getd (p : Profile) (k : String) (d : Value) : Value :=
  match p.lookup k with
  | some v => v
  | none => d

/-- `data.get(src, {})` on the combined record. -/
def Record.getd (r : Record) (k : String) : Profile :=
  match r.lookup k with
  | some p => p
  | none => []

/-! ## The regex engine

Each `re` pattern used by the script is a sequence of: a literal (with
an ignore-case flag), a greedy character-class star (`[^>]*`, `\s*`), a
greedy capturing character-class plus (`([^<]+)`, `(\d+)`), or an
optional literal character (`s?`).  `matchHere` matches such a sequence
at the start of the input with Python's greedy backtracking semantics.
The auxiliary constructors `starK`/`capK` hold the backtracking state
(remaining repeat count, and for captures the matched class run), so
the whole matcher is structurally recursive on a fuel counter and
evaluates inside the kernel.  `matchFuel` over-approximates the maximal
recursion depth, so the fuel never runs out on the given arguments. -/

/-- One element of a compiled pattern. -/
inductive RE where
  | lit (cs : List Char) (ci : Bool)
  | star (p : Char → Bool)
  | starK (p : Char → Bool) (k : Nat)
  | cap (p : Char → Bool)
  | capK (p : Char → Bool) (run : List Char) (k : Nat)
  | opt (c : Char) (ci : Bool)

/-- Character comparison, optionally case-insensitive (`re.IGNORECASE`). -/
def charEq (ci : Bool) (a b : Char) : Bool :=
  if ci then a.toLower == b.toLower else a == b

/-- Match a literal at the start of `s`; return the rest on success. -/
def litMatch (ci : Bool) : List Char → List Char → Option (List Char)
  | [], s => some s
  | _ :: _, [] => none
  | c :: cs, x :: xs => if charEq ci c x then litMatch ci cs xs else none

/-- Match a compiled pattern at the start of `s`.  Returns the number of
consumed characters and the contents of the (single) capture group, if
any.  Stars and pluses are greedy and backtrack from the longest class
run, exactly as Python's `re` does for these patterns. -/
def matchHere : Nat → List RE → List Char → Option (Nat × Option (List Char))
  | 0, _, _ => none
  | _ + 1, [], _ => some (0, none)
  | fuel + 1, RE.lit cs ci :: ps, s =>
    match litMatch ci cs s with
    | some s' =>
      match matchHere fuel ps s' with
      | some (n, cap) => some (n + cs.length, cap)
      | none => none
    | none => none
  | fuel + 1, RE.star p :: ps, s =>
    matchHere fuel (RE.starK p ((s.takeWhile p).length) :: ps) s
  | fuel + 1, RE.starK _ 0 :: ps, s => matchHere fuel ps s
  | fuel + 1, RE.starK p (k + 1) :: ps, s =>
    match matchHere fuel ps (s.drop (k + 1)) with
    | some (n, cap) => some (n + (k + 1), cap)
    | none => matchHere fuel (RE.starK p k :: ps) s
  | fuel + 1, RE.cap p :: ps, s =>
    matchHere fuel (RE.capK p (s.takeWhile p) ((s.takeWhile p).length) :: ps) s
  | _ + 1, RE.capK _ _ 0 :: _, _ => none
  | fuel + 1, RE.capK p run (k + 1) :: ps, s =>
    match matchHere fuel ps (s.drop (k + 1)) with
    | some (n, _) => some (n + (k + 1), some (run.take (k + 1)))
    | none => matchHere fuel (RE.capK p run k :: ps) s
  | fuel + 1, RE.opt c ci :: ps, s =>
    match s with
    | [] => matchHere fuel ps []
    | x :: xs =>
      if charEq ci c x then
        match matchHere fuel ps xs with
        | some (n, cap) => some (n + 1, cap)
        | none => matchHere fuel ps (x :: xs)
      else matchHere fuel ps (x :: xs)

/-- Fuel that dominates the maximal backtracking depth of `matchHere`:
each pattern element contributes at most `s.length + 3` levels. -/
def matchFuel (ps : List RE) (s : List Char) : Nat :=
  (ps.length + 2) * (s.length + 3)

/-- Match the pattern at the start of `s` with adequate fuel. -/
def matchAt (ps : List RE) (s : List Char) : Option (Nat × Option (List Char)) :=
  matchHere (matchFuel ps s) ps s

/-- `re.search` scanning: try each start position from the left; on the
first match return the suffix where the match starts, the consumed
length, and the capture. -/
def searchFrom (pat : List RE) : List Char → Option (List Char × Nat × Option (List Char))
  | [] =>
    match matchAt pat [] with
    | some (n, cap) => some ([], n, cap)
    | none => none
  | x :: xs =>
    match matchAt pat (x :: xs) with
    | some (n, cap) => some (x :: xs, n, cap)
    | none => searchFrom pat xs

/-- `re.search(pat, html)` followed by `.group(1)`: the capture of the
leftmost match, or `none` when the pattern does not match. -/
def reSearch (pat : List RE) (html : String) : Option (List Char) :=
  match searchFrom pat html.data with
  | some (_, _, cap) => cap
  | none => none

/-- `re.findall(pat, html)` for a single-group pattern: the captures of
all non-overlapping matches, scanning from the left and resuming after
each match (bumping by one character on an empty match). -/
def findallGo (pat : List RE) : Nat → List Char → List (List Char)
  | 0, _ => []
  | fuel + 1, s =>
    match searchFrom pat s with
    | none => []
    | some (suffix, n, cap) =>
      (match cap with | some c => [c] | none => []) ++
        findallGo pat fuel (suffix.drop (max n 1))

/-- `re.findall` entry point with fuel covering every position. -/
def reFindall (pat : List RE) (html : String) : List (List Char) :=
  findallGo pat (html.data.length + 1) html.data

/-- A case-sensitive literal pattern element. -/
def lits (s : String) : RE := RE.lit s.data false

/-- A case-insensitive literal pattern element. -/
def litci (s : String) : RE := RE.lit s.data true

/-- `[^>]` as a character class. -/
def notGt (c : Char) : Bool := c != '>'

/-- `[^<]` as a character class. -/
def notLt (c : Char) : Bool := c != '<'

/-- `\s` modelled as the six ASCII whitespace characters Python's `re`
matches (space, tab, newline, carriage return, vertical tab, form
feed). -/
def isPySpace (c : Char) : Bool :=
  c == ' ' || c == '\t' || c == '\n' || c == '\r' || c == '\x0B' || c == '\x0C'

/-! ## Compiled patterns, one per `re.search`/`re.findall` in the source -/

/-- `<h1[^>]*>([^<]+)</h1>` (ResearchGate name). -/
def rgNamePat : List RE :=
  [lits "<h1", RE.star notGt, lits ">", RE.cap notLt, lits "</h1>"]

/-- `institution[^>]*>([^<]+)</[^>]*>`, IGNORECASE (ResearchGate institution). -/
def rgInstPat : List RE :=
  [litci "institution", RE.star notGt, lits ">", RE.cap notLt,
   lits "</", RE.star notGt, lits ">"]

/-- `(\d+)\s*Publications?`, IGNORECASE (ResearchGate publication count). -/
def rgPubPat : List RE :=
  [RE.cap Char.isDigit, RE.star isPySpace, litci "Publication", RE.opt 's' true]

/-- `(\d+)\s*Citations?`, IGNORECASE (ResearchGate citation count). -/
def rgCitPat : List RE :=
  [RE.cap Char.isDigit, RE.star isPySpace, litci "Citation", RE.opt 's' true]

/-- `h-index[^>]*>(\d+)`, IGNORECASE (ResearchGate h-index). -/
def rgHPat : List RE :=
  [litci "h-index", RE.star notGt, lits ">", RE.cap Char.isDigit]

/-- `<div[^>]*id="gsc_prf_in"[^>]*>([^<]+)</div>` (Google Scholar name). -/
def gsNamePat : List RE :=
  [lits "<div", RE.star notGt, lits "id=\"gsc_prf_in\"", RE.star notGt,
   lits ">", RE.cap notLt, lits "</div>"]

/-- `<td[^>]*class="gsc_rsb_std"[^>]*>(\d+)</td>` (Google Scholar metric cells). -/
def gsCellPat : List RE :=
  [lits "<td", RE.star notGt, lits "class=\"gsc_rsb_std\"", RE.star notGt,
   lits ">", RE.cap Char.isDigit, lits "</td>"]

/-! ## Python `int` and `str.strip` on extracted captures -/

/-- Decimal value of a digit string, the value Python's `int` returns on
an all-digit argument. -/
def digitsVal (cs : List Char) : Nat :=
  cs.foldl (fun a c => a * 10 + (c.toNat - 48)) 0

/-- `str.strip()`: drop leading and trailing whitespace. -/
def pyStrip (cs : List Char) : List Char :=
  ((cs.dropWhile isPySpace).reverse.dropWhile isPySpace).reverse

/-- Parse an already-stripped string the way Python's `int` does:
an optional sign followed by one or more digits; anything else raises
`ValueError`, modelled as `none`. -/
def pyIntCore : List Char → Option Int
  | [] => none
  | c :: ds =>
    if c = '-' then
      if ds ≠ [] ∧ ds.all Char.isDigit then some (-(digitsVal ds : Int)) else none
    else if c = '+' then
      if ds ≠ [] ∧ ds.all Char.isDigit then some ((digitsVal ds : Nat) : Int) else none
    else if (c :: ds).all Char.isDigit then some ((digitsVal (c :: ds) : Nat) : Int)
    else none

/-- Python `int(s)`: strip whitespace, then parse. -/
def pyInt (cs : List Char) : Option Int :=
  pyIntCore (pyStrip cs)

/-! ## Errors, fetch outcomes, and observable events -/

/-- The exceptions this program can raise or catch. -/
inductive PyErr where
  | requestError
  | httpError
  | valueError
  | yamlError
  | keyError
  | typeError
deriving DecidableEq

/-- What the network does for one `session.get(url)`: raise a request
exception, or deliver a response with a status code and a body. -/
inductive FetchOutcome where
  | raises
  | resp (status : Nat) (body : String)

/-- The network environment: each URL's behaviour on this run. -/
abbrev Env := String → FetchOutcome

/-- An observable side effect of a run: an outbound HTTP GET, or a
`time.sleep` pacing pause. -/
inductive Event where
  | httpGet (url : String)
  | sleep (seconds : Nat)
deriving DecidableEq

/-- `session.get(url)`: an error, or `(status_code, text)`. -/
def sessionGet (env : Env) (url : String) : Except PyErr (Nat × String) :=
  match env url with
  | .raises => .error .requestError
  | .resp st body => .ok (st, body)

/-- `response.raise_for_status()`: raises `HTTPError` exactly on 4xx and
5xx status codes. -/
def raiseForStatus (st : Nat) : Except PyErr Unit :=
  if 400 ≤ st ∧ st < 600 then .error .httpError else .ok ()

/-- True when `session.get` followed by `raise_for_status` raises: the
request itself failed, or the status is an error status. -/
def isFailure : FetchOutcome → Bool
  | .raises => true
  | .resp st _ => decide (400 ≤ st) && decide (st < 600)

/-! ## ResearchGateProfile (`src/update_dashboard.py` lines 25-82) -/

/-- `ResearchGateProfile._extract_name`:
`re.search(r'<h1[^>]*>([^<]+)</h1>', html)`, group 1 stripped, else `""`. -/
def ResearchGateProfile.extract_name (html : String) : String :=
  match reSearch rgNamePat html with
  | some cap => String.mk (pyStrip cap)
  | none => ""

/-- `ResearchGateProfile._extract_institution`:
`re.search(r'institution[^>]*>([^<]+)</[^>]*>', html, re.IGNORECASE)`,
group 1 stripped, else `""`. -/
def ResearchGateProfile.extract_institution (html : String) : String :=
  match reSearch rgInstPat html with
  | some cap => String.mk (pyStrip cap)
  | none => ""

/-- `ResearchGateProfile._extract_publications`:
`int(match.group(1))` on `(\d+)\s*Publications?` (IGNORECASE), else `0`.
A `ValueError` from `int` is modelled as `.error .valueError`. -/
def ResearchGateProfile.extract_publications (html : String) : Except PyErr Int :=
  match reSearch rgPubPat html with
  | some cap =>
    match pyInt cap with
    | some n => .ok n
    | none => .error .valueError
  | none => .ok 0

/-- `ResearchGateProfile._extract_citations`:
`int(match.group(1))` on `(\d+)\s*Citations?` (IGNORECASE), else `0`. -/
def ResearchGateProfile.extract_citations (html : String) : Except PyErr Int :=
  match reSearch rgCitPat html with
  | some cap =>
    match pyInt cap with
    | some n => .ok n
    | none => .error .valueError
  | none => .ok 0

/-- `ResearchGateProfile._extract_research_interests`: returns `[]`. -/
def ResearchGateProfile.extract_research_interests (_html : String) : List Value := []

/-- `ResearchGateProfile._extract_h_index`:
`int(match.group(1))` on `h-index[^>]*>(\d+)` (IGNORECASE), else `0`. -/
def ResearchGateProfile.extract_h_index (html : String) : Except PyErr Int :=
  match reSearch rgHPat html with
  | some cap =>
    match pyInt cap with
    | some n => .ok n
    | none => .error .valueError
  | none => .ok 0

/-- Body of the `try` block in `ResearchGateProfile.get_profile_data`:
fetch the page, validate the status, and build the profile dictionary
in the source's key order. -/
def ResearchGateProfile.tryProfile (env : Env) (url : String) : Except PyErr Profile :=
  match sessionGet env url with
  | .error e => .error e
  | .ok (st, body) =>
    match raiseForStatus st with
    | .error e => .error e
    | .ok _ =>
      match ResearchGateProfile.extract_publications body with
      | .error e => .error e
      | .ok pubs =>
        match ResearchGateProfile.extract_citations body with
        | .error e => .error e
        | .ok cits =>
          match ResearchGateProfile.extract_h_index body with
          | .error e => .error e
          | .ok hidx =>
            .ok [("name", .s (ResearchGateProfile.extract_name body)),
                 ("institution", .s (ResearchGateProfile.extract_institution body)),
                 ("publications", .i pubs),
                 ("citations", .i cits),
                 ("research_interests", .l (ResearchGateProfile.extract_research_interests body)),
                 ("h_index", .i hidx)]

/-- `ResearchGateProfile.get_profile_data`: the `try` body with the
blanket `except Exception` handler that prints a diagnostic and returns
`{}`.  The event log records the single outbound request. -/
def ResearchGateProfile.get_profile_data (env : Env) (url : String) : Profile × List Event :=
  (match ResearchGateProfile.tryProfile env url with
   | .ok d => d
   | .error _ => [],
   [.httpGet url])

/-! ## GoogleScholarProfile (`src/update_dashboard.py` lines 84-134) -/

/-- `GoogleScholarProfile._extract_name`:
`re.search(r'<div[^>]*id="gsc_prf_in"[^>]*>([^<]+)</div>', html)`,
group 1 stripped, else `""`. -/
def GoogleScholarProfile.extract_name (html : String) : String :=
  match reSearch gsNamePat html with
  | some cap => String.mk (pyStrip cap)
  | none => ""

/-- `GoogleScholarProfile._extract_citations`:
`int(match.group(1))` on the first `gsc_rsb_std` cell, else `0`. -/
def GoogleScholarProfile.extract_citations (html : String) : Except PyErr Int :=
  match reSearch gsCellPat html with
  | some cap =>
    match pyInt cap with
    | some n => .ok n
    | none => .error .valueError
  | none => .ok 0

/-- `GoogleScholarProfile._extract_h_index`:
`int(matches[1])` over `re.findall` of the `gsc_rsb_std` cells when at
least two matched, else `0`. -/
def GoogleScholarProfile.extract_h_index (html : String) : Except PyErr Int :=
  if h : 1 < (reFindall gsCellPat html).length then
    match pyInt ((reFindall gsCellPat html).get ⟨1, h⟩) with
    | some n => .ok n
    | none => .error .valueError
  else .ok 0

/-- `GoogleScholarProfile._extract_i10_index`:
`int(matches[2])` over `re.findall` of the `gsc_rsb_std` cells when at
least three matched, else `0`. -/
def GoogleScholarProfile.extract_i10_index (html : String) : Except PyErr Int :=
  if h : 2 < (reFindall gsCellPat html).length then
    match pyInt ((reFindall gsCellPat html).get ⟨2, h⟩) with
    | some n => .ok n
    | none => .error .valueError
  else .ok 0

/-- `GoogleScholarProfile._extract_publications`: returns `[]`. -/
def GoogleScholarProfile.extract_publications (_html : String) : List Value := []

/-- Body of the `try` block in `GoogleScholarProfile.get_profile_data`,
building the profile dictionary in the source's key order. -/
def GoogleScholarProfile.tryProfile (env : Env) (url : String) : Except PyErr Profile :=
  match sessionGet env url with
  | .error e => .error e
  | .ok (st, body) =>
    match raiseForStatus st with
    | .error e => .error e
    | .ok _ =>
      match GoogleScholarProfile.extract_citations body with
      | .error e => .error e
      | .ok cits =>
        match GoogleScholarProfile.extract_h_index body with
        | .error e => .error e
        | .ok hidx =>
          match GoogleScholarProfile.extract_i10_index body with
          | .error e => .error e
          | .ok i10 =>
            .ok [("name", .s (GoogleScholarProfile.extract_name body)),
                 ("citations", .i cits),
                 ("h_index", .i hidx),
                 ("i10_index", .i i10),
                 ("publications", .l (GoogleScholarProfile.extract_publications body))]

/-- `GoogleScholarProfile.get_profile_data`: the `try` body with the
blanket `except Exception` handler returning `{}`; one request logged. -/
def GoogleScholarProfile.get_profile_data (env : Env) (url : String) : Profile × List Event :=
  (match GoogleScholarProfile.tryProfile env url with
   | .ok d => d
   | .error _ => [],
   [.httpGet url])

/-! ## LinkedInProfile (`src/update_dashboard.py` lines 136-151) -/

/-- `LinkedInProfile.get_profile_data`: a deliberate stub — no network
request is issued (empty event log) and a fixed dictionary with empty
current position, empty education, and empty experience is returned,
regardless of the configured URL. -/
def LinkedInProfile.get_profile_data (_url : String) : Profile × List Event :=
  ([("current_position", .s ""),
    ("education", .s ""),
    ("experience", .l [])],
   [])

/-! ## DashboardUpdater (`src/update_dashboard.py` lines 153-277) -/

/-- `DashboardUpdater.collect_data`: visit the sources in the fixed
order researchgate, google_scholar, linkedin; a source is visited only
when its identifier is a key of `config['profiles']`; after each
network-bound source a `time.sleep(2)` pacing pause follows.  Returns
the combined record (insertion order reflects visit order) and the
event log. -/
def DashboardUpdater.collect_data (profiles : List (String × String)) (env : Env) :
    Record × List Event :=
  let rg : Record × List Event :=
    match profiles.lookup "researchgate" with
    | some url =>
      let (p, ev) := ResearchGateProfile.get_profile_data env url
      ([("researchgate", p)], ev ++ [.sleep 2])
    | none => ([], [])
  let gs : Record × List Event :=
    match profiles.lookup "google_scholar" with
    | some url =>
      let (p, ev) := GoogleScholarProfile.get_profile_data env url
      ([("google_scholar", p)], ev ++ [.sleep 2])
    | none => ([], [])
  let li : Record × List Event :=
    match profiles.lookup "linkedin" with
    | some url =>
      let (p, ev) := LinkedInProfile.get_profile_data url
      ([("linkedin", p)], ev)
    | none => ([], [])
  (rg.1 ++ gs.1 ++ li.1, rg.2 ++ gs.2 ++ li.2)

/-- The metric expression `data.get(src, {}).get(field, 'N/A')` used by
the README template for each of the four metrics. -/
def metricOf (data : Record) (src field : String) : Value :=
  (Record.getd data src).getd field (.s "N/A")

/-- The f-string template of `DashboardUpdater.generate_readme` with
its five holes: the four metric substitutions and the timestamp. -/
def readmeTemplate (pubs cits hidx i10 now : String) : String :=
  "# Yu-Hao Tseng\n\n## About Me\nI'm a researcher at National Taiwan Ocean University, specializing in oceanography and marine sciences.\n\n## 📊 Research Metrics\n- **Publications**: " ++ pubs ++
  "\n- **Citations**: " ++ cits ++
  "\n- **H-index**: " ++ hidx ++
  "\n- **i10-index**: " ++ i10 ++
  "\n\n## 🔬 Research Interests\n- Ocean Current Analysis\n- Marine Dynamics\n- Geographic Information Systems (GIS)\n- Data Visualization\n\n## 📚 Education\n- **National Taiwan Ocean University**\n  - Department of Marine Environmental Informatics\n\n## 🔗 Links\n- [ResearchGate](https://www.researchgate.net/profile/Yu-Hao-Tseng)\n- [Google Scholar](https://scholar.google.com/citations?user=_zozF1AAAAAJ)\n- [LinkedIn](https://www.linkedin.com/in/yu-hao-tseng-70316221b/)\n\n## 💻 Current Projects\n- Ocean Current Observation and Analysis\n- GMT (Generic Mapping Tools) Applications\n- MATLAB Ocean Dynamics Modeling\n- OpenDrift Trajectory Modeling\n\n## 📈 Repository Statistics\n![GitHub Stats](https://github-readme-stats.vercel.app/api?username=ja754969&show_icons=true&theme=radical)\n\n---\n*Last updated: " ++ now ++ "*\n"

/-- `DashboardUpdater.generate_readme`: substitute the four metric
expressions (each `data.get(src, {}).get(field, 'N/A')`, formatted with
`str`) and the `datetime.now().strftime('%Y-%m-%d %H:%M:%S')` timestamp
(the clock is a parameter `now`) into the fixed template. -/
def DashboardUpdater.generate_readme (data : Record) (now : String) : String :=
  readmeTemplate
    (pyStr (metricOf data "researchgate" "publications"))
    (pyStr (metricOf data "google_scholar" "citations"))
    (pyStr (metricOf data "google_scholar" "h_index"))
    (pyStr (metricOf data "google_scholar" "i10_index"))
    now

/-- `DashboardUpdater.run_update` given a loaded configuration:
collect, render, and write.  The returned pair is the written file
(path and full contents); the function is total, so every run completes
and produces a rendered document. -/
def DashboardUpdater.run_update (profiles : List (String × String)) (path : String)
    (env : Env) (now : String) : String × String :=
  (path, DashboardUpdater.generate_readme (DashboardUpdater.collect_data profiles env).1 now)

/-! ## Config store (`src/update_dashboard.py` lines 156-191)

The YAML layer is modelled at the level of structured values: a
configuration file on disk is either absent, present but malformed
(so `yaml.safe_load` raises `YAMLError`), or holds a structured value.
`yaml.dump` followed by `yaml.safe_load` is modelled as the identity on
structured values; for the default configuration (nested dictionaries
of strings and booleans) PyYAML round-trips exactly — `sort_keys`
reorders keys, but Python dictionary equality is key-order-insensitive,
so the identity abstraction is sound. -/

/-- A YAML-serializable configuration value. -/
inductive YVal where
  | s (v : String)
  | b (v : Bool)
  | dict (es : List (String × YVal))

/-- The state of the configuration file on disk. -/
inductive FileState where
  | absent
  | malformed
  | stored (v : YVal)

/-- The hard-coded `default_config` dictionary of
`DashboardUpdater._create_default_config`, in source order. -/
def default_config : YVal :=
  .dict [("profiles", .dict
            [("researchgate", .s "https://www.researchgate.net/profile/Yu-Hao-Tseng"),
             ("linkedin", .s "https://www.linkedin.com/in/yu-hao-tseng-70316221b/"),
             ("google_scholar", .s "https://scholar.google.com/citations?user=_zozF1AAAAAJ")]),
         ("readme_path", .s "README.md"),
         ("update_frequency", .s "daily"),
         ("sections", .dict
            [("about", .b true),
             ("publications", .b true),
             ("citations", .b true),
             ("research_interests", .b true),
             ("education", .b true),
             ("experience", .b true)])]

/-- `DashboardUpdater._create_default_config`: write the default
configuration to the given path and return it.  Returns the new file
state together with the configuration. -/
def DashboardUpdater.create_default_config : YVal × FileState :=
  (default_config, .stored default_config)

/-- `DashboardUpdater._load_config`: deserialize the file when present;
on `FileNotFoundError` fall back to creating the default configuration;
a malformed file makes `yaml.safe_load` raise `YAMLError`, which is not
caught.  Returns the configuration and the resulting file state. -/
def DashboardUpdater.load_config : FileState → Except PyErr (YVal × FileState)
  | .absent => .ok DashboardUpdater.create_default_config
  | .malformed => .error .yamlError
  | .stored v => .ok (v, .stored v)

/-- Lookup in a YAML dictionary value. -/
def YVal.lookup2 (v : YVal) (k₁ k₂ : String) : Option YVal :=
  match v with
  | .dict es =>
    match es.lookup k₁ with
    | some (.dict es₂) => es₂.lookup k₂
    | _ => none
  | _ => none

/-- `self.config.get('readme_path', 'README.md')` in
`DashboardUpdater.__init__`.  A non-dictionary configuration would make
the attribute access raise in Python; a non-string path would make the
later `open` raise; both are modelled as a type error. -/
def DashboardUpdater.readme_path_of (config : YVal) : Except PyErr String :=
  match config with
  | .dict es =>
    match es.lookup "readme_path" with
    | some (.s p) => .ok p
    | some _ => .error .typeError
    | none => .ok "README.md"
  | _ => .error .typeError

/-- Read `config['profiles']` as a string-to-string mapping.  A missing
key raises `KeyError`; a value of the wrong shape is modelled as a type
error (Python would fail on membership testing or on `session.get`). -/
def DashboardUpdater.profiles_of (config : YVal) : Except PyErr (List (String × String)) :=
  match config with
  | .dict es =>
    match es.lookup "profiles" with
    | some (.dict ps) => strPairs ps
    | some _ => .error .typeError
    | none => .error .keyError
  | _ => .error .typeError
where
  /-- Require every profile entry to map to a URL string. -/
  strPairs : List (String × YVal) → Except PyErr (List (String × String))
    | [] => .ok []
    | (k, .s v) :: rest =>
      match strPairs rest with
      | .ok r => .ok ((k, v) :: r)
      | .error e => .error e
    | _ => .error .typeError

/-- `main()` / the full `DashboardUpdater` lifecycle: construct the
updater (which loads or creates the configuration — a raising load
aborts the run before any scraping or writing), then collect, render,
and write.  Returns the written file (path, contents), or the
uncaught exception. -/
def main_run (fs : FileState) (env : Env) (now : String) :
    Except PyErr (String × String) :=
  match DashboardUpdater.load_config fs with
  | .error e => .error e
  | .ok (config, _) =>
    match DashboardUpdater.readme_path_of config with
    | .error e => .error e
    | .ok path =>
      match DashboardUpdater.profiles_of config with
      | .error e => .error e
      | .ok profiles =>
        .ok (path, DashboardUpdater.generate_readme (DashboardUpdater.collect_data profiles env).1 now)

/-! ## Capture invariants of the matcher

Every capture produced by these patterns comes from a greedy
one-or-more class element, so it is a nonempty string of characters of
that class; for the numeric patterns the class is the digit class, so
Python's `int` on the capture can never raise. -/

/-- The capturing elements of a pattern only capture characters
satisfying `q` (and a `capK` state is well-formed: its stored run
satisfies `q` and its counter is within the run). -/
def capClassOK (q : Char → Bool) : RE → Prop
  | RE.cap p => ∀ c, p c = true → q c = true
  | RE.capK _ run k => (∀ c ∈ run, q c = true) ∧ k ≤ run.length
  | _ => True

/-- Any capture returned by `matchHere` on a `capClassOK` pattern is a
nonempty string of `q`-characters. -/
theorem matchHere_cap (q : Char → Bool) :
    ∀ (fuel : Nat) (ps : List RE) (s : List Char) (n : Nat) (cap : List Char),
      (∀ r ∈ ps, capClassOK q r) →
      matchHere fuel ps s = some (n, some cap) →
      cap ≠ [] ∧ ∀ c ∈ cap, q c = true := by
  intro fuel
  induction fuel with
  | zero =>
    intro ps s n cap _ h
    simp [matchHere] at h
  | succ fuel ih =>
    intro ps s n cap hps h
    cases ps with
    | nil =>
      rw [matchHere.eq_def] at h
      dsimp only at h
      cases h
    | cons r ps =>
      have hr : capClassOK q r := hps r (List.mem_cons_self r ps)
      have hps' : ∀ x ∈ ps, capClassOK q x := fun x hx => hps x (List.mem_cons_of_mem r hx)
      cases r with
      | lit cs ci =>
        rw [matchHere.eq_def] at h
        dsimp only at h
        split at h
        next s' hlm =>
          split at h
          next n' cap' hm =>
            simp only [Option.some.injEq, Prod.mk.injEq] at h
            exact ih ps s' n' cap hps' (h.2 ▸ hm)
          next => cases h
        next => cases h
      | star p =>
        rw [matchHere.eq_def] at h
        dsimp only at h
        refine ih _ s n cap ?_ h
        intro x hx
        rcases List.mem_cons.mp hx with rfl | hx
        · trivial
        · exact hps' x hx
      | starK p k =>
        cases k with
        | zero =>
          rw [matchHere.eq_def] at h
          dsimp only at h
          exact ih ps s n cap hps' h
        | succ k =>
          rw [matchHere.eq_def] at h
          dsimp only at h
          split at h
          next n' cap' hm =>
            simp only [Option.some.injEq, Prod.mk.injEq] at h
            exact ih ps _ n' cap hps' (h.2 ▸ hm)
          next =>
            refine ih _ s n cap ?_ h
            intro x hx
            rcases List.mem_cons.mp hx with rfl | hx
            · trivial
            · exact hps' x hx
      | cap p =>
        rw [matchHere.eq_def] at h
        dsimp only at h
        refine ih _ s n cap ?_ h
        intro x hx
        rcases List.mem_cons.mp hx with rfl | hx
        · exact ⟨fun c hc => hr c (List.mem_takeWhile_imp hc), le_refl _⟩
        · exact hps' x hx
      | capK p run k =>
        cases k with
        | zero =>
          rw [matchHere.eq_def] at h
          dsimp only at h
          cases h
        | succ k =>
          obtain ⟨hrun, hk⟩ := hr
          rw [matchHere.eq_def] at h
          dsimp only at h
          split at h
          next n' cap' hm =>
            simp only [Option.some.injEq, Prod.mk.injEq] at h
            obtain ⟨-, h2⟩ := h
            subst h2
            constructor
            · intro hnil
              have hlen := congrArg List.length hnil
              rw [List.length_take] at hlen
              simp only [List.length_nil] at hlen
              omega
            · intro c hc
              exact hrun c (List.take_subset _ _ hc)
          next =>
            refine ih _ s n cap ?_ h
            intro x hx
            rcases List.mem_cons.mp hx with rfl | hx
            · exact ⟨hrun, Nat.le_of_succ_le hk⟩
            · exact hps' x hx
      | opt c ci =>
        rw [matchHere.eq_def] at h
        dsimp only at h
        cases s with
        | nil => exact ih ps [] n cap hps' h
        | cons x xs =>
          dsimp only at h
          by_cases hce : charEq ci c x = true
          · rw [if_pos hce] at h
            split at h
            next n' cap' hm =>
              simp only [Option.some.injEq, Prod.mk.injEq] at h
              exact ih ps xs n' cap hps' (h.2 ▸ hm)
            next => exact ih ps (x :: xs) n cap hps' h
          · rw [if_neg hce] at h
            exact ih ps (x :: xs) n cap hps' h

/-- Captures found by `searchFrom` are nonempty `q`-strings. -/
theorem searchFrom_cap (q : Char → Bool) (pat : List RE)
    (hpat : ∀ r ∈ pat, capClassOK q r) :
    ∀ (s suf : List Char) (n : Nat) (cap : List Char),
      searchFrom pat s = some (suf, n, some cap) →
      cap ≠ [] ∧ ∀ c ∈ cap, q c = true := by
  intro s
  induction s with
  | nil =>
    intro suf n cap h
    rw [searchFrom] at h
    split at h
    next n' cap' hm =>
      simp only [Option.some.injEq, Prod.mk.injEq] at h
      exact matchHere_cap q _ pat [] n' cap hpat (h.2.2 ▸ hm)
    next => cases h
  | cons x xs ih =>
    intro suf n cap h
    rw [searchFrom] at h
    split at h
    next n' cap' hm =>
      simp only [Option.some.injEq, Prod.mk.injEq] at h
      exact matchHere_cap q _ pat (x :: xs) n' cap hpat (h.2.2 ▸ hm)
    next => exact ih suf n cap h

/-- Captures returned by `reSearch` are nonempty `q`-strings. -/
theorem reSearch_cap (q : Char → Bool) (pat : List RE)
    (hpat : ∀ r ∈ pat, capClassOK q r) (html : String) (cap : List Char) :
    reSearch pat html = some cap → cap ≠ [] ∧ ∀ c ∈ cap, q c = true := by
  intro h
  rw [reSearch] at h
  split at h
  next suf n cap' hs =>
    exact searchFrom_cap q pat hpat html.data suf n cap (h ▸ hs)
  next => cases h

/-- Every element of a `findallGo` result is a nonempty `q`-string. -/
theorem findallGo_cap (q : Char → Bool) (pat : List RE)
    (hpat : ∀ r ∈ pat, capClassOK q r) :
    ∀ (fuel : Nat) (s c : List Char),
      c ∈ findallGo pat fuel s → c ≠ [] ∧ ∀ ch ∈ c, q ch = true := by
  intro fuel
  induction fuel with
  | zero =>
    intro s c hc
    simp [findallGo] at hc
  | succ fuel ih =>
    intro s c hc
    rw [findallGo] at hc
    split at hc
    next => cases hc
    next suf n cap hs =>
      rcases List.mem_append.mp hc with hc | hc
      · cases cap with
        | none => cases hc
        | some c0 =>
          rw [List.mem_singleton] at hc
          subst hc
          exact searchFrom_cap q pat hpat s suf n c hs
      · exact ih _ c hc

/-- Every element of a `reFindall` result is a nonempty `q`-string. -/
theorem reFindall_cap (q : Char → Bool) (pat : List RE)
    (hpat : ∀ r ∈ pat, capClassOK q r) (html : String) (c : List Char) :
    c ∈ reFindall pat html → c ≠ [] ∧ ∀ ch ∈ c, q ch = true :=
  fun hc => findallGo_cap q pat hpat _ html.data c hc

/-- The ResearchGate publications pattern captures only digits. -/
theorem rgPubPat_capOK : ∀ r ∈ rgPubPat, capClassOK Char.isDigit r := by
  intro r hr
  simp only [rgPubPat, litci, List.mem_cons, List.mem_singleton] at hr
  rcases hr with rfl | rfl | rfl | rfl | h
  · exact fun c hc => hc
  · trivial
  · trivial
  · trivial
  · cases h

/-- The ResearchGate citations pattern captures only digits. -/
theorem rgCitPat_capOK : ∀ r ∈ rgCitPat, capClassOK Char.isDigit r := by
  intro r hr
  simp only [rgCitPat, litci, List.mem_cons, List.mem_singleton] at hr
  rcases hr with rfl | rfl | rfl | rfl | h
  · exact fun c hc => hc
  · trivial
  · trivial
  · trivial
  · cases h

/-- The ResearchGate h-index pattern captures only digits. -/
theorem rgHPat_capOK : ∀ r ∈ rgHPat, capClassOK Char.isDigit r := by
  intro r hr
  simp only [rgHPat, litci, lits, List.mem_cons, List.mem_singleton] at hr
  rcases hr with rfl | rfl | rfl | rfl | h
  · trivial
  · trivial
  · trivial
  · exact fun c hc => hc
  · cases h

/-- The Google Scholar metric-cell pattern captures only digits. -/
theorem gsCellPat_capOK : ∀ r ∈ gsCellPat, capClassOK Char.isDigit r := by
  intro r hr
  simp only [gsCellPat, lits, List.mem_cons, List.mem_singleton] at hr
  rcases hr with rfl | rfl | rfl | rfl | rfl | rfl | rfl | h
  · trivial
  · trivial
  · trivial
  · trivial
  · trivial
  · exact fun c hc => hc
  · trivial
  · cases h

/-- A whitespace character is not a digit. -/
theorem pySpace_not_digit (c : Char) (h : isPySpace c = true) : c.isDigit = false := by
  have hc : c = ' ' ∨ c = '\t' ∨ c = '\n' ∨ c = '\r' ∨ c = '\x0B' ∨ c = '\x0C' := by
    simpa [isPySpace, or_assoc] using h
  rcases hc with rfl | rfl | rfl | rfl | rfl | rfl <;> decide

/-- A digit character is not whitespace. -/
theorem digit_not_pySpace (c : Char) (h : c.isDigit = true) : isPySpace c = false := by
  cases hs : isPySpace c
  · rfl
  · rw [pySpace_not_digit c hs] at h
    cases h

/-- Python `int` succeeds on a nonempty all-digit string and returns
its decimal value. -/
theorem pyInt_digits (cs : List Char) (hne : cs ≠ [])
    (hdig : ∀ c ∈ cs, c.isDigit = true) :
    pyInt cs = some ((digitsVal cs : Nat) : Int) := by
  have hstrip : pyStrip cs = cs := by
    unfold pyStrip
    have h1 : cs.dropWhile isPySpace = cs := by
      cases cs with
      | nil => rfl
      | cons a l =>
        rw [List.dropWhile_cons_of_neg]
        simp [digit_not_pySpace a (hdig a (List.mem_cons_self a l))]
    rw [h1]
    have h2 : cs.reverse.dropWhile isPySpace = cs.reverse := by
      cases hrv : cs.reverse with
      | nil => rfl
      | cons a l =>
        rw [List.dropWhile_cons_of_neg]
        have ha : a ∈ cs := by
          rw [← List.mem_reverse, hrv]
          exact List.mem_cons_self a l
        simp [digit_not_pySpace a (hdig a ha)]
    rw [h2, List.reverse_reverse]
  rw [pyInt, hstrip]
  cases cs with
  | nil => exact absurd rfl hne
  | cons a l =>
    have ha : a.isDigit = true := hdig a (List.mem_cons_self a l)
    have hna : ¬a = '-' := by
      intro e
      rw [e] at ha
      cases ha
    have hpa : ¬a = '+' := by
      intro e
      rw [e] at ha
      cases ha
    rw [pyIntCore, if_neg hna, if_neg hpa, if_pos]
    exact List.all_eq_true.mpr fun c hc => hdig c hc

/-- On a digit-capturing pattern, `int` of a `reSearch` capture always
succeeds with the capture's decimal value. -/
theorem searchInt_ok (pat : List RE) (hpat : ∀ r ∈ pat, capClassOK Char.isDigit r)
    (html : String) (cap : List Char) (h : reSearch pat html = some cap) :
    pyInt cap = some ((digitsVal cap : Nat) : Int) := by
  obtain ⟨hne, hdig⟩ := reSearch_cap Char.isDigit pat hpat html cap h
  exact pyInt_digits cap hne hdig

/-- Characterization of `ResearchGateProfile._extract_publications`:
never raises; decimal value of the first capture on a match, `0`
otherwise. -/
theorem extract_publications_spec (html : String) :
    (∀ cap, reSearch rgPubPat html = some cap →
      ResearchGateProfile.extract_publications html = .ok ((digitsVal cap : Nat) : Int)) ∧
    (reSearch rgPubPat html = none →
      ResearchGateProfile.extract_publications html = .ok 0) := by
  constructor
  · intro cap hc
    unfold ResearchGateProfile.extract_publications
    rw [hc]
    dsimp only
    rw [searchInt_ok rgPubPat rgPubPat_capOK html cap hc]
  · intro hn
    unfold ResearchGateProfile.extract_publications
    rw [hn]

/-- Characterization of `ResearchGateProfile._extract_citations`. -/
theorem extract_citations_spec (html : String) :
    (∀ cap, reSearch rgCitPat html = some cap →
      ResearchGateProfile.extract_citations html = .ok ((digitsVal cap : Nat) : Int)) ∧
    (reSearch rgCitPat html = none →
      ResearchGateProfile.extract_citations html = .ok 0) := by
  constructor
  · intro cap hc
    unfold ResearchGateProfile.extract_citations
    rw [hc]
    dsimp only
    rw [searchInt_ok rgCitPat rgCitPat_capOK html cap hc]
  · intro hn
    unfold ResearchGateProfile.extract_citations
    rw [hn]

/-- Characterization of `ResearchGateProfile._extract_h_index`. -/
theorem extract_h_index_rg_spec (html : String) :
    (∀ cap, reSearch rgHPat html = some cap →
      ResearchGateProfile.extract_h_index html = .ok ((digitsVal cap : Nat) : Int)) ∧
    (reSearch rgHPat html = none →
      ResearchGateProfile.extract_h_index html = .ok 0) := by
  constructor
  · intro cap hc
    unfold ResearchGateProfile.extract_h_index
    rw [hc]
    dsimp only
    rw [searchInt_ok rgHPat rgHPat_capOK html cap hc]
  · intro hn
    unfold ResearchGateProfile.extract_h_index
    rw [hn]

/-- Characterization of `GoogleScholarProfile._extract_citations`. -/
theorem extract_citations_gs_spec (html : String) :
    (∀ cap, reSearch gsCellPat html = some cap →
      GoogleScholarProfile.extract_citations html = .ok ((digitsVal cap : Nat) : Int)) ∧
    (reSearch gsCellPat html = none →
      GoogleScholarProfile.extract_citations html = .ok 0) := by
  constructor
  · intro cap hc
    unfold GoogleScholarProfile.extract_citations
    rw [hc]
    dsimp only
    rw [searchInt_ok gsCellPat gsCellPat_capOK html cap hc]
  · intro hn
    unfold GoogleScholarProfile.extract_citations
    rw [hn]

/-- Characterization of `GoogleScholarProfile._extract_h_index`:
never raises; decimal value of the second cell when at least two cells
match, `0` otherwise. -/
theorem extract_h_index_gs_spec (html : String) :
    (∀ h : 1 < (reFindall gsCellPat html).length,
      GoogleScholarProfile.extract_h_index html =
        .ok ((digitsVal ((reFindall gsCellPat html).get ⟨1, h⟩) : Nat) : Int)) ∧
    (¬1 < (reFindall gsCellPat html).length →
      GoogleScholarProfile.extract_h_index html = .ok 0) := by
  constructor
  · intro h
    unfold GoogleScholarProfile.extract_h_index
    rw [dif_pos h]
    have hmem : (reFindall gsCellPat html).get ⟨1, h⟩ ∈ reFindall gsCellPat html :=
      (reFindall gsCellPat html).get_mem _ _
    obtain ⟨hne, hdig⟩ := reFindall_cap Char.isDigit gsCellPat gsCellPat_capOK html _ hmem
    rw [pyInt_digits _ hne hdig]
  · intro h
    unfold GoogleScholarProfile.extract_h_index
    rw [dif_neg h]

/-- Characterization of `GoogleScholarProfile._extract_i10_index`:
never raises; decimal value of the third cell when at least three cells
match, `0` otherwise. -/
theorem extract_i10_index_gs_spec (html : String) :
    (∀ h : 2 < (reFindall gsCellPat html).length,
      GoogleScholarProfile.extract_i10_index html =
        .ok ((digitsVal ((reFindall gsCellPat html).get ⟨2, h⟩) : Nat) : Int)) ∧
    (¬2 < (reFindall gsCellPat html).length →
      GoogleScholarProfile.extract_i10_index html = .ok 0) := by
  constructor
  · intro h
    unfold GoogleScholarProfile.extract_i10_index
    rw [dif_pos h]
    have hmem : (reFindall gsCellPat html).get ⟨2, h⟩ ∈ reFindall gsCellPat html :=
      (reFindall gsCellPat html).get_mem _ _
    obtain ⟨hne, hdig⟩ := reFindall_cap Char.isDigit gsCellPat gsCellPat_capOK html _ hmem
    rw [pyInt_digits _ hne hdig]
  · intro h
    unfold GoogleScholarProfile.extract_i10_index
    rw [dif_neg h]

/-- No numeric extractor ever returns an error. -/
theorem extractors_never_error (html : String) :
    (∃ n, ResearchGateProfile.extract_publications html = .ok n) ∧
    (∃ n, ResearchGateProfile.extract_citations html = .ok n) ∧
    (∃ n, ResearchGateProfile.extract_h_index html = .ok n) ∧
    (∃ n, GoogleScholarProfile.extract_citations html = .ok n) ∧
    (∃ n, GoogleScholarProfile.extract_h_index html = .ok n) ∧
    (∃ n, GoogleScholarProfile.extract_i10_index html = .ok n) := by
  refine ⟨?_, ?_, ?_, ?_, ?_, ?_⟩
  · cases hc : reSearch rgPubPat html with
    | some cap => exact ⟨_, (extract_publications_spec html).1 cap hc⟩
    | none => exact ⟨0, (extract_publications_spec html).2 hc⟩
  · cases hc : reSearch rgCitPat html with
    | some cap => exact ⟨_, (extract_citations_spec html).1 cap hc⟩
    | none => exact ⟨0, (extract_citations_spec html).2 hc⟩
  · cases hc : reSearch rgHPat html with
    | some cap => exact ⟨_, (extract_h_index_rg_spec html).1 cap hc⟩
    | none => exact ⟨0, (extract_h_index_rg_spec html).2 hc⟩
  · cases hc : reSearch gsCellPat html with
    | some cap => exact ⟨_, (extract_citations_gs_spec html).1 cap hc⟩
    | none => exact ⟨0, (extract_citations_gs_spec html).2 hc⟩
  · by_cases h : 1 < (reFindall gsCellPat html).length
    · exact ⟨_, (extract_h_index_gs_spec html).1 h⟩
    · exact ⟨0, (extract_h_index_gs_spec html).2 h⟩
  · by_cases h : 2 < (reFindall gsCellPat html).length
    · exact ⟨_, (extract_i10_index_gs_spec html).1 h⟩
    · exact ⟨0, (extract_i10_index_gs_spec html).2 h⟩

/-! ## Failure isolation of the source clients -/

/-- When the fetch raises or returns an error status, the ResearchGate
client's `try` body raises, so the handler returns the empty profile;
the request was still issued. -/
theorem rg_get_fail (env : Env) (url : String) (hf : isFailure (env url) = true) :
    ResearchGateProfile.get_profile_data env url = ([], [Event.httpGet url]) := by
  have herr : ∃ e, ResearchGateProfile.tryProfile env url = .error e := by
    unfold ResearchGateProfile.tryProfile sessionGet
    cases henv : env url with
    | raises => exact ⟨.requestError, rfl⟩
    | resp st body =>
      rw [henv] at hf
      simp only [isFailure, Bool.and_eq_true, decide_eq_true_eq] at hf
      refine ⟨.httpError, ?_⟩
      unfold raiseForStatus
      dsimp only
      rw [if_pos hf]
  obtain ⟨e, he⟩ := herr
  unfold ResearchGateProfile.get_profile_data
  rw [he]

/-- Same failure isolation for the Google Scholar client. -/
theorem gs_get_fail (env : Env) (url : String) (hf : isFailure (env url) = true) :
    GoogleScholarProfile.get_profile_data env url = ([], [Event.httpGet url]) := by
  have herr : ∃ e, GoogleScholarProfile.tryProfile env url = .error e := by
    unfold GoogleScholarProfile.tryProfile sessionGet
    cases henv : env url with
    | raises => exact ⟨.requestError, rfl⟩
    | resp st body =>
      rw [henv] at hf
      simp only [isFailure, Bool.and_eq_true, decide_eq_true_eq] at hf
      refine ⟨.httpError, ?_⟩
      unfold raiseForStatus
      dsimp only
      rw [if_pos hf]
  obtain ⟨e, he⟩ := herr
  unfold GoogleScholarProfile.get_profile_data
  rw [he]

/-- A successful fetch of an empty page yields the ResearchGate profile
with every field at its extractor default. -/
theorem rg_get_empty (env : Env) (url : String) (henv : env url = .resp 200 "") :
    ResearchGateProfile.get_profile_data env url =
      ([("name", .s ""), ("institution", .s ""), ("publications", .i 0),
        ("citations", .i 0), ("research_interests", .l []), ("h_index", .i 0)],
       [Event.httpGet url]) := by
  unfold ResearchGateProfile.get_profile_data ResearchGateProfile.tryProfile sessionGet
  rw [henv]
  rfl

/-- A successful fetch of an empty page yields the Google Scholar
profile with every field at its extractor default. -/
theorem gs_get_empty (env : Env) (url : String) (henv : env url = .resp 200 "") :
    GoogleScholarProfile.get_profile_data env url =
      ([("name", .s ""), ("citations", .i 0), ("h_index", .i 0),
        ("i10_index", .i 0), ("publications", .l [])],
       [Event.httpGet url]) := by
  unfold GoogleScholarProfile.get_profile_data GoogleScholarProfile.tryProfile sessionGet
  rw [henv]
  rfl

/-! ## Claim theorems -/

/-- C1: For every configuration and every behaviour of the sources, the
aggregator never raises on a single source's failure: a source whose
fetch raises or returns an error status contributes the empty profile
`{}` (absence of a field being its documented default representation),
a source whose fetch succeeds with an empty page contributes the
profile with every field at its extractor default, and the run always
completes and writes the rendered document. -/
theorem c1_source_failure_isolated (profiles : List (String × String)) (env : Env)
    (path now : String) :
    (∀ url, profiles.lookup "researchgate" = some url → isFailure (env url) = true →
      (DashboardUpdater.collect_data profiles env).1.lookup "researchgate" =
        some ([] : Profile)) ∧
    (∀ url, profiles.lookup "google_scholar" = some url → isFailure (env url) = true →
      (DashboardUpdater.collect_data profiles env).1.lookup "google_scholar" =
        some ([] : Profile)) ∧
    (∀ url, profiles.lookup "researchgate" = some url → env url = .resp 200 "" →
      (DashboardUpdater.collect_data profiles env).1.lookup "researchgate" =
        some [("name", .s ""), ("institution", .s ""), ("publications", .i 0),
              ("citations", .i 0), ("research_interests", .l []), ("h_index", .i 0)]) ∧
    (∀ url, profiles.lookup "google_scholar" = some url → env url = .resp 200 "" →
      (DashboardUpdater.collect_data profiles env).1.lookup "google_scholar" =
        some [("name", .s ""), ("citations", .i 0), ("h_index", .i 0),
              ("i10_index", .i 0), ("publications", .l [])]) ∧
    DashboardUpdater.run_update profiles path env now =
      (path, DashboardUpdater.generate_readme
        (DashboardUpdater.collect_data profiles env).1 now) := by
  refine ⟨?_, ?_, ?_, ?_, rfl⟩
  · intro url hl hf
    simp [DashboardUpdater.collect_data, hl, rg_get_fail env url hf, List.lookup]
  · intro url hl hf
    cases hrg : profiles.lookup "researchgate" <;>
      simp [DashboardUpdater.collect_data, hrg, hl, gs_get_fail env url hf, List.lookup]
  · intro url hl he
    simp [DashboardUpdater.collect_data, hl, rg_get_empty env url he, List.lookup]
  · intro url hl he
    cases hrg : profiles.lookup "researchgate" <;>
      simp [DashboardUpdater.collect_data, hrg, hl, gs_get_empty env url he, List.lookup]

/-- Witness for C1 at a concrete configuration with both network-bound
sources configured and a network that raises on every request. -/
theorem c1_source_failure_isolated_witness :
    (DashboardUpdater.collect_data [("researchgate", "u1"), ("google_scholar", "u2")]
      (fun _ => FetchOutcome.raises)).1.lookup "researchgate" = some ([] : Profile) :=
  (c1_source_failure_isolated [("researchgate", "u1"), ("google_scholar", "u2")]
    (fun _ => FetchOutcome.raises) "README.md" "2025-01-01 00:00:00").1 "u1" rfl rfl

/-- C4: the access-restricted (LinkedIn) client is a stub: for every
configured URL it returns the identical fixed profile with empty
current position, empty education, and empty experience, and issues no
network request (its event log is empty). -/
theorem c4_linkedin_stub_fixed (url : String) :
    LinkedInProfile.get_profile_data url =
      ([("current_position", Value.s ""), ("education", Value.s ""),
        ("experience", Value.l [])], ([] : List Event)) ∧
    ∀ url', LinkedInProfile.get_profile_data url = LinkedInProfile.get_profile_data url' :=
  ⟨rfl, fun _ => rfl⟩

/-- C6: loading against a nonexistent path creates the file with the
hard-coded default configuration — whose profiles dictionary holds the
three documented URLs — and returns exactly the written value, so that
reloading the written file yields the same configuration
(load(write(default)) == default). -/
theorem c6_default_config_roundtrip :
    DashboardUpdater.load_config FileState.absent =
      .ok (default_config, FileState.stored default_config) ∧
    default_config.lookup2 "profiles" "researchgate" =
      some (.s "https://www.researchgate.net/profile/Yu-Hao-Tseng") ∧
    default_config.lookup2 "profiles" "linkedin" =
      some (.s "https://www.linkedin.com/in/yu-hao-tseng-70316221b/") ∧
    default_config.lookup2 "profiles" "google_scholar" =
      some (.s "https://scholar.google.com/citations?user=_zozF1AAAAAJ") ∧
    DashboardUpdater.load_config (FileState.stored default_config) =
      .ok (default_config, FileState.stored default_config) :=
  ⟨rfl, rfl, rfl, rfl, rfl⟩

/-- C7: the config store is two-tier: an absent file is recovered by
persisting the default configuration and the run proceeds to a written
document, while a present but malformed file makes the load raise
`YAMLError` and the whole run abort with that error — no partial-config
fallback. -/
theorem c7_config_two_tier (env : Env) (now : String) :
    DashboardUpdater.load_config FileState.malformed = .error PyErr.yamlError ∧
    main_run FileState.malformed env now = .error PyErr.yamlError ∧
    (∃ doc, main_run FileState.absent env now = .ok doc) :=
  ⟨rfl, rfl, ⟨_, rfl⟩⟩

/-- C5: every field-extraction function is total: on any input string
it returns without raising — the numeric extractors yield the decimal
value of the first capture group when the pattern matches (for the
positional Google Scholar indices, of the second/third cell) and `0`
when it does not; the string extractors yield the stripped capture or
`""`; the list extractors yield `[]`. -/
theorem c5_extractors_total (html : String) :
    (∃ n, ResearchGateProfile.extract_publications html = .ok n) ∧
    (∃ n, ResearchGateProfile.extract_citations html = .ok n) ∧
    (∃ n, ResearchGateProfile.extract_h_index html = .ok n) ∧
    (∃ n, GoogleScholarProfile.extract_citations html = .ok n) ∧
    (∃ n, GoogleScholarProfile.extract_h_index html = .ok n) ∧
    (∃ n, GoogleScholarProfile.extract_i10_index html = .ok n) ∧
    (∀ cap, reSearch rgPubPat html = some cap →
      ResearchGateProfile.extract_publications html = .ok ((digitsVal cap : Nat) : Int)) ∧
    (reSearch rgPubPat html = none →
      ResearchGateProfile.extract_publications html = .ok 0) ∧
    (∀ cap, reSearch rgCitPat html = some cap →
      ResearchGateProfile.extract_citations html = .ok ((digitsVal cap : Nat) : Int)) ∧
    (reSearch rgCitPat html = none →
      ResearchGateProfile.extract_citations html = .ok 0) ∧
    (∀ cap, reSearch rgHPat html = some cap →
      ResearchGateProfile.extract_h_index html = .ok ((digitsVal cap : Nat) : Int)) ∧
    (reSearch rgHPat html = none →
      ResearchGateProfile.extract_h_index html = .ok 0) ∧
    (∀ cap, reSearch gsCellPat html = some cap →
      GoogleScholarProfile.extract_citations html = .ok ((digitsVal cap : Nat) : Int)) ∧
    (reSearch gsCellPat html = none →
      GoogleScholarProfile.extract_citations html = .ok 0) ∧
    (∀ h : 1 < (reFindall gsCellPat html).length,
      GoogleScholarProfile.extract_h_index html =
        .ok ((digitsVal ((reFindall gsCellPat html).get ⟨1, h⟩) : Nat) : Int)) ∧
    (¬1 < (reFindall gsCellPat html).length →
      GoogleScholarProfile.extract_h_index html = .ok 0) ∧
    (∀ h : 2 < (reFindall gsCellPat html).length,
      GoogleScholarProfile.extract_i10_index html =
        .ok ((digitsVal ((reFindall gsCellPat html).get ⟨2, h⟩) : Nat) : Int)) ∧
    (¬2 < (reFindall gsCellPat html).length →
      GoogleScholarProfile.extract_i10_index html = .ok 0) ∧
    (∀ cap, reSearch rgNamePat html = some cap →
      ResearchGateProfile.extract_name html = String.mk (pyStrip cap)) ∧
    (reSearch rgNamePat html = none → ResearchGateProfile.extract_name html = "") ∧
    (∀ cap, reSearch rgInstPat html = some cap →
      ResearchGateProfile.extract_institution html = String.mk (pyStrip cap)) ∧
    (reSearch rgInstPat html = none → ResearchGateProfile.extract_institution html = "") ∧
    (∀ cap, reSearch gsNamePat html = some cap →
      GoogleScholarProfile.extract_name html = String.mk (pyStrip cap)) ∧
    (reSearch gsNamePat html = none → GoogleScholarProfile.extract_name html = "") ∧
    ResearchGateProfile.extract_research_interests html = [] ∧
    GoogleScholarProfile.extract_publications html = [] := by
  obtain ⟨e1, e2, e3, e4, e5, e6⟩ := extractors_never_error html
  refine ⟨e1, e2, e3, e4, e5, e6,
    (extract_publications_spec html).1, (extract_publications_spec html).2,
    (extract_citations_spec html).1, (extract_citations_spec html).2,
    (extract_h_index_rg_spec html).1, (extract_h_index_rg_spec html).2,
    (extract_citations_gs_spec html).1, (extract_citations_gs_spec html).2,
    (extract_h_index_gs_spec html).1, (extract_h_index_gs_spec html).2,
    (extract_i10_index_gs_spec html).1, (extract_i10_index_gs_spec html).2,
    ?_, ?_, ?_, ?_, ?_, ?_, rfl, rfl⟩
  · intro cap hc
    unfold ResearchGateProfile.extract_name
    rw [hc]
  · intro hn
    unfold ResearchGateProfile.extract_name
    rw [hn]
  · intro cap hc
    unfold ResearchGateProfile.extract_institution
    rw [hc]
  · intro hn
    unfold ResearchGateProfile.extract_institution
    rw [hn]
  · intro cap hc
    unfold GoogleScholarProfile.extract_name
    rw [hc]
  · intro hn
    unfold GoogleScholarProfile.extract_name
    rw [hn]

/-- A page exercising the match cases of the extractors. -/
def c5html : String :=
  "<h1>Ann</h1><td class=\"gsc_rsb_std\">10</td><td class=\"gsc_rsb_std\">20</td> 7 Publications"

/-- Witness for C5 at a concrete page: match cases return the captured
values, and the positional Google Scholar i10 extractor falls back to
`0` when only two cells match. -/
theorem c5_extractors_total_witness :
    ResearchGateProfile.extract_publications c5html = .ok 7 ∧
    ResearchGateProfile.extract_name c5html = "Ann" ∧
    GoogleScholarProfile.extract_h_index c5html = .ok 20 ∧
    GoogleScholarProfile.extract_i10_index c5html = .ok 0 := by
  obtain ⟨-, -, -, -, -, -, hpub, -, -, -, -, -, -, -, hgsh, -, -, hi10, hname, -, -, -, -, -,
    -, -⟩ := c5_extractors_total c5html
  exact ⟨hpub ("7".data) rfl, hname ("Ann".data) rfl,
    hgsh (by decide), hi10 (by decide)⟩

/-- C8: the aggregator visits sources in the fixed order researchgate,
google_scholar, linkedin (the keys of the combined record appear in
exactly that order, filtered by what is configured, and the event log
places the researchgate request and its pacing sleep before the
google_scholar ones; the linkedin stub adds no event); a source
identifier absent from the configured profiles mapping gets no entry in
the combined record at all. -/
theorem c8_fixed_order_and_skip (profiles : List (String × String)) (env : Env) :
    ((DashboardUpdater.collect_data profiles env).1.map Prod.fst =
      ["researchgate", "google_scholar", "linkedin"].filter
        (fun s => (profiles.lookup s).isSome)) ∧
    (∀ s, profiles.lookup s = none →
      (DashboardUpdater.collect_data profiles env).1.lookup s = none) ∧
    ((DashboardUpdater.collect_data profiles env).2 =
      (match profiles.lookup "researchgate" with
       | some url => [Event.httpGet url, Event.sleep 2]
       | none => []) ++
      (match profiles.lookup "google_scholar" with
       | some url => [Event.httpGet url, Event.sleep 2]
       | none => [])) := by
  refine ⟨?_, ?_, ?_⟩
  · cases hrg : profiles.lookup "researchgate" <;>
    cases hgs : profiles.lookup "google_scholar" <;>
    cases hli : profiles.lookup "linkedin" <;>
      simp [DashboardUpdater.collect_data, hrg, hgs, hli, List.filter]
  · intro s hs
    have hne : ∀ (k u : String), profiles.lookup k = some u → (s == k) = false := by
      intro k u hk
      refine beq_eq_false_iff_ne.mpr ?_
      intro e
      rw [e, hk] at hs
      cases hs
    cases hrg : profiles.lookup "researchgate" <;>
    cases hgs : profiles.lookup "google_scholar" <;>
    cases hli : profiles.lookup "linkedin" <;>
      simp [DashboardUpdater.collect_data, hrg, hgs, hli, List.lookup, hne]
  · cases hrg : profiles.lookup "researchgate" <;>
    cases hgs : profiles.lookup "google_scholar" <;>
    cases hli : profiles.lookup "linkedin" <;>
      simp [DashboardUpdater.collect_data, hrg, hgs, hli,
        ResearchGateProfile.get_profile_data, GoogleScholarProfile.get_profile_data,
        LinkedInProfile.get_profile_data]

/-- Witness for C8: with only google_scholar and an unknown source
configured, the record has exactly the google_scholar entry, the
skipped researchgate source has no entry, and the log is the
google_scholar request plus its pacing sleep. -/
theorem c8_fixed_order_and_skip_witness :
    ((DashboardUpdater.collect_data [("google_scholar", "u"), ("orcid", "v")]
      (fun _ => FetchOutcome.raises)).1.map Prod.fst =
      ["researchgate", "google_scholar", "linkedin"].filter
        (fun s => (([("google_scholar", "u"), ("orcid", "v")] :
          List (String × String)).lookup s).isSome)) ∧
    (DashboardUpdater.collect_data [("google_scholar", "u"), ("orcid", "v")]
      (fun _ => FetchOutcome.raises)).1.lookup "researchgate" = none := by
  obtain ⟨h1, h2, -⟩ := c8_fixed_order_and_skip
    [("google_scholar", "u"), ("orcid", "v")] (fun _ => FetchOutcome.raises)
  exact ⟨h1, h2 "researchgate" rfl⟩

/-- All four rendered metrics are present in the combined record. -/
def allMetricsPresent (data : Record) : Bool :=
  ((Record.getd data "researchgate").lookup "publications").isSome &&
  ((Record.getd data "google_scholar").lookup "citations").isSome &&
  ((Record.getd data "google_scholar").lookup "h_index").isSome &&
  ((Record.getd data "google_scholar").lookup "i10_index").isSome

/-- C9: for a combined record with all fields present, rendering is a
pure function of the record and the clock: two calls with the same
record and the same fixed clock value produce byte-identical document
text (the clock parameter stands for the only impurity,
`datetime.now()`). -/
theorem c9_render_deterministic (data : Record) (t1 t2 : String)
    (_hall : allMetricsPresent data = true) (ht : t1 = t2) :
    DashboardUpdater.generate_readme data t1 = DashboardUpdater.generate_readme data t2 := by
  rw [ht]

/-- A combined record with every rendered metric present. -/
def fullRecord : Record :=
  [("researchgate", [("name", .s "A"), ("publications", .i 5)]),
   ("google_scholar", [("citations", .i 9), ("h_index", .i 4), ("i10_index", .i 2)])]

/-- Witness for C9 at a concrete all-fields-present record and a fixed
clock value. -/
theorem c9_render_deterministic_witness :
    DashboardUpdater.generate_readme fullRecord "2025-01-01 00:00:00" =
      DashboardUpdater.generate_readme fullRecord "2025-01-01 00:00:00" :=
  c9_render_deterministic fullRecord "2025-01-01 00:00:00" "2025-01-01 00:00:00" rfl rfl

/-- C10: the rendered document depends only on the researchgate
publications metric, the three google_scholar metrics, and the clock:
two records agreeing on those four lookups render identically — in
particular the extracted name, institution, research interests, and
the entire linkedin entry never affect the document. -/
theorem c10_render_depends_only_on_metrics (d1 d2 : Record) (now : String)
    (hp : metricOf d1 "researchgate" "publications" =
      metricOf d2 "researchgate" "publications")
    (hc : metricOf d1 "google_scholar" "citations" =
      metricOf d2 "google_scholar" "citations")
    (hh : metricOf d1 "google_scholar" "h_index" =
      metricOf d2 "google_scholar" "h_index")
    (hi : metricOf d1 "google_scholar" "i10_index" =
      metricOf d2 "google_scholar" "i10_index") :
    DashboardUpdater.generate_readme d1 now = DashboardUpdater.generate_readme d2 now := by
  unfold DashboardUpdater.generate_readme
  rw [hp, hc, hh, hi]

/-- `fullRecord` with different names, an institution, and a linkedin
entry added — the four rendered metrics unchanged. -/
def fullRecordNoisy : Record :=
  [("researchgate", [("name", .s "B"), ("institution", .s "X"), ("publications", .i 5)]),
   ("google_scholar", [("name", .s "C"), ("citations", .i 9), ("h_index", .i 4),
     ("i10_index", .i 2)]),
   ("linkedin", [("current_position", .s "Y")])]

/-- Witness for C10: changing names and adding a linkedin entry leaves
the rendered document byte-identical. -/
theorem c10_render_depends_only_on_metrics_witness :
    DashboardUpdater.generate_readme fullRecord "2025-01-01 00:00:00" =
      DashboardUpdater.generate_readme fullRecordNoisy "2025-01-01 00:00:00" :=
  c10_render_depends_only_on_metrics fullRecord fullRecordNoisy
    "2025-01-01 00:00:00" rfl rfl rfl rfl

/-- C2 (amended): a metric absent from the combined record — because
its source was skipped or its fetch failed — renders as the literal
marker "N/A", never as an empty string, 0, or a null-like token; a
metric that is present because the extractor defaulted it renders as
that default value. -/
theorem c2_missing_metric_renders_na (data : Record) (now : String) :
    (DashboardUpdater.generate_readme data now =
      readmeTemplate (pyStr (metricOf data "researchgate" "publications"))
        (pyStr (metricOf data "google_scholar" "citations"))
        (pyStr (metricOf data "google_scholar" "h_index"))
        (pyStr (metricOf data "google_scholar" "i10_index")) now) ∧
    ((Record.getd data "researchgate").lookup "publications" = none →
      pyStr (metricOf data "researchgate" "publications") = "N/A") ∧
    ((Record.getd data "google_scholar").lookup "citations" = none →
      pyStr (metricOf data "google_scholar" "citations") = "N/A") ∧
    ((Record.getd data "google_scholar").lookup "h_index" = none →
      pyStr (metricOf data "google_scholar" "h_index") = "N/A") ∧
    ((Record.getd data "google_scholar").lookup "i10_index" = none →
      pyStr (metricOf data "google_scholar" "i10_index") = "N/A") := by
  refine ⟨rfl, ?_, ?_, ?_, ?_⟩ <;>
    (intro h; unfold metricOf Profile.getd; rw [h]; rfl)

/-- Witness for the amended C2: on the empty record every metric is
absent and its rendered token is the marker. -/
theorem c2_missing_metric_renders_na_witness :
    pyStr (metricOf ([] : Record) "researchgate" "publications") = "N/A" :=
  (c2_missing_metric_renders_na [] "2025-01-01 00:00:00").2.1 rfl

/-- A configuration with only the google_scholar source. -/
def gsOnlyProfiles : List (String × String) :=
  [("google_scholar", "https://scholar.google.com/citations?user=x")]

/-- A network that answers every request with status 200 and an empty
body, so every extractor falls back to its default. -/
def emptyPageEnv : Env := fun _ => .resp 200 ""

/-- C2 counterexample: after a successful fetch of an empty page the
google_scholar citations field is defaulted by the extractor to `0`,
so it is present in the combined record, and the rendered document
shows the token "0" — not the not-available marker — for that metric,
refuting the claim that a metric defaulted by the extractor renders as
the marker and never as 0. -/
theorem c2_counterexample :
    (DashboardUpdater.collect_data gsOnlyProfiles emptyPageEnv).1.lookup "google_scholar" =
      some [("name", .s ""), ("citations", .i 0), ("h_index", .i 0),
            ("i10_index", .i 0), ("publications", .l [])] ∧
    pyStr (metricOf (DashboardUpdater.collect_data gsOnlyProfiles emptyPageEnv).1
      "google_scholar" "citations") = "0" ∧
    DashboardUpdater.generate_readme
      (DashboardUpdater.collect_data gsOnlyProfiles emptyPageEnv).1
      "2025-01-01 00:00:00" =
      readmeTemplate "N/A" "0" "0" "0" "2025-01-01 00:00:00" ∧
    ("0" : String) ≠ "N/A" :=
  ⟨rfl, rfl, rfl, by decide⟩

/-- The configured Google Scholar profile URL of the C3 scenario. -/
def gsUrl : String := "https://scholar.google.com/citations?user=_zozF1AAAAAJ"

/-- A fetched page body with a name block and exactly three numeric
metric cells 120, 15, 6 in the expected table positions. -/
def gsBody : String :=
  "<div id=\"gsc_prf_in\">A. Researcher</div><table><td class=\"gsc_rsb_std\">120</td><td class=\"gsc_rsb_std\">15</td><td class=\"gsc_rsb_std\">6</td></table>"

/-- A configuration containing only the google_scholar source. -/
def c3profiles : List (String × String) := [("google_scholar", gsUrl)]

/-- A network serving `gsBody` at the configured URL. -/
def c3env : Env := fun url => if url = gsUrl then .resp 200 gsBody else .raises

/-- C3: end-to-end google_scholar-only scenario: the three numeric
cells are found in order, citations come from the first matching cell
(the `re.search` capture), h-index from the second, i10-index from the
third; the combined record holds citations=120, h_index=15,
i10_index=6; the rendered metrics show 120, 15, 6 with publications as
the not-available marker; and with fewer matching cells each positional
metric defaults to 0. -/
theorem c3_gs_end_to_end :
    reFindall gsCellPat gsBody = ["120".data, "15".data, "6".data] ∧
    reSearch gsCellPat gsBody = some ("120".data) ∧
    (DashboardUpdater.collect_data c3profiles c3env).1 =
      [("google_scholar",
        [("name", .s "A. Researcher"), ("citations", .i 120), ("h_index", .i 15),
         ("i10_index", .i 6), ("publications", .l [])])] ∧
    DashboardUpdater.generate_readme (DashboardUpdater.collect_data c3profiles c3env).1
      "2025-01-01 00:00:00" =
      readmeTemplate "N/A" "120" "15" "6" "2025-01-01 00:00:00" ∧
    GoogleScholarProfile.extract_citations "" = .ok 0 ∧
    GoogleScholarProfile.extract_h_index "<td class=\"gsc_rsb_std\">7</td>" = .ok 0 ∧
    GoogleScholarProfile.extract_i10_index
      "<td class=\"gsc_rsb_std\">7</td><td class=\"gsc_rsb_std\">8</td>" = .ok 0 :=
  ⟨rfl, rfl, rfl, rfl, rfl, rfl, rfl⟩
